import Mathlib

/-!
Verification of the interview_agent repository's natural-language specification
against its source.

The repository contains three JavaScript front ends and two model-call service
modules:
* `src/services/openaiService.js` (src/unnamed/part_000) and
  `src/services/deepseekService.js`: question generation and answer evaluation
  through a chat model;
* a mock-interview React app (`src/src/pages`, src/unnamed/part_001,
  src/unnamed/part_002): PreparePage, InterviewPage (with `formatTime`),
  ResultPage;
* a resume-interview front end (`src/frontend/src`, src/unnamed/part_003,
  src/unnamed/part_004): App (session start), Chat (transcript), i18n.

Stateful React components are embedded as explicit state-passing functions on
their state records; the model call and `JSON.parse` boundary is embedded as a
`ModelResponse` value carrying the raw response text together with the parse
outcome. The Python orchestrator backend the spec describes (session store,
topic extractor) is not under src/; where a claim is decided by that missing
code it is modelled from the spec, with a doc comment saying so.
-/

/- ================= Model-call boundary ================= -/

/-- Outcome of one `model.invoke(prompt)` call as the service code observes it:
either the call throws (`callError`, caught by the service's outer catch), or
it returns a response whose `content` field is the raw text `raw`; `parsed` is
the outcome of `JSON.parse(raw)` interpreted at the expected shape `α`
(`none` when `JSON.parse` throws or the shape does not apply). -/
inductive ModelResponse (α : Type) where
  | callError (msg : String)
  | content (raw : String) (parsed : Option α)
deriving DecidableEq

/- ================= openaiService.js (src/unnamed/part_000) ================= -/

/-- One question object of the declared output JSON structure of
`generateInterviewQuestions` (id, 题型, 题目文本, analysis points). -/
structure Question where
  id : Int
  type : String
  text : String
  analysis_points : List String
deriving DecidableEq

/-- What `generateInterviewQuestions` can hand back to its caller on the
non-throwing path: the parsed question array, or — when `JSON.parse` fails —
the raw response content string itself ("If parsing fails, return the raw
content in the same structure"). -/
inductive GenOutcome where
  | questions (qs : List Question)
  | raw (content : String)
deriving DecidableEq

/-- generateInterviewQuestions (part_000 lines 55-123; same control flow in
deepseekService.js lines 52-103): invoke the model once; try
`JSON.parse(response.content)` and return the parsed value; if parsing fails,
return the raw content; if the model call itself threw, rethrow the error. -/
def generateInterviewQuestions (resp : ModelResponse (List Question)) :
    Except String GenOutcome :=
  match resp with
  | ModelResponse.callError msg => Except.error msg
  | ModelResponse.content _ (some qs) => Except.ok (GenOutcome.questions qs)
  | ModelResponse.content raw none => Except.ok (GenOutcome.raw raw)

/-- The service performs exactly one `model.invoke` call; running it against a
stream of would-be model responses (the response the model would give to the
n-th invocation) consumes only the first one. -/
def generateInterviewQuestionsRun (stream : Nat → ModelResponse (List Question)) :
    Except String GenOutcome :=
  generateInterviewQuestions (stream 0)

/-- The parsed shape of the evaluation JSON that the code reads back
(`overallScore`, `feedback`, `strengths`, `improvements`); fields the page
reads through optional chaining are `Option`-valued. `questionEvaluations`
is requested in the prompt but never read by any code under src/, so it is
not carried here. -/
structure Evaluation where
  overallScore : Option Int
  feedback : Option String
  strengths : List String
  improvements : List String
deriving DecidableEq

/-- evaluateCandidateAnswers (part_000 lines 131-188): invoke the model once;
on a successful `JSON.parse` return the parsed evaluation; if parsing fails
throw "评分结果格式错误"; if the model call threw, rethrow. -/
def evaluateCandidateAnswers (resp : ModelResponse Evaluation) :
    Except String Evaluation :=
  match resp with
  | ModelResponse.callError msg => Except.error msg
  | ModelResponse.content _ none => Except.error "评分结果格式错误"
  | ModelResponse.content _ (some j) => Except.ok j

/- ================= ResultPage (src/unnamed/part_002) ================= -/

/-- The ResultPage state the evaluation flow touches: `evaluation`,
`error`, `isLoading`. -/
structure ResultPageState where
  evaluation : Option Evaluation
  error : Option String
  isLoading : Bool
deriving DecidableEq

/-- Initial ResultPage state: `useState(null)`, `useState(null)`,
`useState(true)`. -/
def initialResultPageState : ResultPageState :=
  { evaluation := none, error := none, isLoading := true }

/-- evaluateAnswers (part_002 lines 20-35): await evaluateCandidateAnswers; on
success store the evaluation and clear the error; on a caught error set the
error message and leave `evaluation` as it was; either way loading ends. -/
def evaluateAnswers (st : ResultPageState) (resp : ModelResponse Evaluation) :
    ResultPageState :=
  match evaluateCandidateAnswers resp with
  | Except.ok data => { evaluation := some data, error := none, isLoading := false }
  | Except.error _ =>
      { st with error := some "评分过程中发生错误，请稍后重试", isLoading := false }

/-- The score the success view renders (part_002 line 108):
`evaluation?.overallScore || 0` — the stored overallScore, with a missing
evaluation, a missing field, or a zero value all displaying as 0. -/
def displayedScore (st : ResultPageState) : Int :=
  match st.evaluation with
  | none => 0
  | some e =>
    match e.overallScore with
    | none => 0
    | some v => if v = 0 then 0 else v

/- ================= Chat transcript (src/unnamed/part_003) ================= -/

/-- A chat message as the Chat component builds it: `text`, `sender`
("user" or "agent"), display `timestamp`. -/
structure Message where
  text : String
  sender : String
  timestamp : String
deriving DecidableEq

/-- isDuplicateMessage (part_003 lines 56-66): only agent messages are checked;
a new agent message is a duplicate when some existing agent message has the
same text. -/
def isDuplicateMessage (newMessage : Message) (messagesList : List Message) : Bool :=
  if newMessage.sender != "agent" then
    false
  else
    messagesList.any (fun message =>
      message.text == newMessage.text && message.sender == "agent")

/-- The updater both fetchFirstQuestion (lines 92-97) and handleSubmit
(lines 159-164) pass to `setMessages` for an agent message: keep the previous
list when the message is a duplicate, otherwise append it. -/
def addAgentMessage (prev : List Message) (newMessage : Message) : List Message :=
  if isDuplicateMessage newMessage prev then prev else prev ++ [newMessage]

/-- The transcript-changing events of one Chat session: the first-question
fetch appends an agent message (with deduplication); an accepted answer
submission appends the user message and then the agent reply (handleSubmit
lines 134 and 159-164); a failed submission has already appended the user
message when the request errors (line 134). -/
inductive ChatEvent where
  | firstQuestion (m : Message)
  | answerAccepted (user : Message) (agent : Message)
  | answerFailed (user : Message)

/-- Effect of one Chat event on the `messages` state. -/
def applyChatEvent (msgs : List Message) : ChatEvent → List Message
  | ChatEvent.firstQuestion m => addAgentMessage msgs m
  | ChatEvent.answerAccepted u a => addAgentMessage (msgs ++ [u]) a
  | ChatEvent.answerFailed u => msgs ++ [u]

/-- Effect of a sequence of Chat events, oldest first. -/
def applyChatEvents (msgs : List Message) : List ChatEvent → List Message
  | [] => msgs
  | e :: es => applyChatEvents (applyChatEvent msgs e) es

/- ============ Configuration and ambient storage (part_000, deepseekService.js, frontend App.js) ============ -/

/-- The model configuration object stored under the `modelConfig` key of
browser localStorage (ConfigPage saves `modelName`, `baseURL`, `apiToken`). -/
structure ModelConfig where
  modelName : String
  baseURL : String
  apiToken : String
deriving DecidableEq

/-- The ambient localStorage state the services read: `none` when no
`modelConfig` item is stored, `some none` when the stored string does not
parse as JSON, `some (some c)` when it parses to the configuration `c`. -/
def LocalStorageState : Type := Option (Option ModelConfig)

/-- getModelConfig (part_000 lines 12-24): read `modelConfig` from
localStorage at call time; return the parsed object, or null when the item is
absent or parsing throws. -/
def getModelConfig : LocalStorageState → Option ModelConfig
  | some (some c) => some c
  | some none => none
  | none => none

/-- getApiToken (deepseekService.js lines 12-24): read `modelConfig` from
localStorage at call time and return `modelConfig.apiToken || null` — the
token, with an empty (falsy) token degraded to null. -/
def getApiToken (ls : LocalStorageState) : Option String :=
  match ls with
  | some (some c) => if c.apiToken = "" then none else some c.apiToken
  | some none => none
  | none => none

/-- The constructor arguments of the `ChatOpenAI` model the services build per
call (the constant `temperature: 0.7` is omitted: a floating-point literal no
claim depends on). -/
structure ChatOpenAIParams where
  modelName : String
  baseURL : String
  apiKey : String
deriving DecidableEq

/-- initializeOpenAIModel (part_000 lines 28-45): read the ambient model
configuration at call time and build the model from it; when the stored
configuration is null, the access `config.modelName` throws a TypeError
(caught by the calling service's outer catch), embedded as `Except.error`. -/
def initializeOpenAIModel (ls : LocalStorageState) : Except String ChatOpenAIParams :=
  match getModelConfig ls with
  | none => Except.error "TypeError: config is null"
  | some c => Except.ok { modelName := c.modelName, baseURL := c.baseURL, apiKey := c.apiToken }

/-- handleUpload (frontend/src/App.js lines 36-71): the session-start request
URL carries the adaptive-questioning toggle read from component state at
upload time. -/
def startUrl (adaptiveQuestioning : Bool) : String :=
  "http://192.168.1.20:8000/interview/start?adaptive_questioning=" ++
    (if adaptiveQuestioning then "True" else "False")

/- ============ Generation Gateway and Topic Extractor, modelled from the spec ============ -/

/-- The closed error taxonomy of the spec's Generation Gateway (§4.1):
GenerationError kind ContractViolation, Transient or Fatal. -/
inductive GenError where
  | contractViolation
  | transient
  | fatal
deriving DecidableEq

/-- Modelled from the spec: the retry behaviour of the Generation Gateway
(§4.1, step 3) is part of the backend, which is not under src/. Following the
spec's words: attempt to interpret the raw text against the schema; on a match
return the structured result; on a mismatch re-invoke (the stricter re-prompt
being the next stream entry) while re-prompt attempts remain, and report
ContractViolation once `maxContractRetries` is exhausted. The transient-retry
policy of step 4 is orthogonal to the claims here: a failed call surfaces as a
Transient error directly. This definition exists to be compared with the
source service, which performs a single invocation. -/
def specGatewayGenerate {α : Type} (retriesLeft : Nat)
    (stream : Nat → ModelResponse α) (i : Nat) : Except GenError α :=
  match stream i with
  | ModelResponse.callError _ => Except.error GenError.transient
  | ModelResponse.content _ (some a) => Except.ok a
  | ModelResponse.content _ none =>
    match retriesLeft with
    | 0 => Except.error GenError.contractViolation
    | r + 1 => specGatewayGenerate r stream (i + 1)

/-- A discussion topic as the spec's Topic Extractor produces it: name and
priority rank. -/
structure Topic where
  name : String
  priority : Int
deriving DecidableEq

/-- Modelled from the spec: the Topic Extractor (§4.2) lives in the Python
backend (the `interview_agent` package), which is not under src/ — src/ holds
only its HTTP caller (frontend App.handleUpload starting the session).
Following the spec's words: the extractor calls the Generation Gateway once
for an ordered list of name/priority objects; on ContractViolation after
gateway retries it falls back to the single generic topic "general technical
background" rather than failing the session; other gateway errors propagate. -/
def extractTopics (gatewayResult : Except GenError (List Topic)) :
    Except GenError (List Topic) :=
  match gatewayResult with
  | Except.ok ts => Except.ok ts
  | Except.error GenError.contractViolation =>
      Except.ok [{ name := "general technical background", priority := 1 }]
  | Except.error e => Except.error e

/- ============ Session Store step contract, modelled from the spec ============ -/

/-- Modelled from the spec: the Session (§3) as the step-idempotence claim
needs it — the append-only answer transcript and the monotonically increasing
version. The backend Session Store is not under src/; the frontend Chat
(part_003) only posts answers to it. -/
structure Session where
  transcript : List String
  version : Nat
deriving DecidableEq

/-- Outcome of a step commit: applied, or rejected as stale. -/
inductive StepResult where
  | ok
  | versionConflict
deriving DecidableEq

/-- Modelled from the spec: one answer-applying `step()` guarded by the
Session Store's optimistic versioning (§4.8, §5): the commit succeeds only
when the stored version equals the caller's expected version, appending the
answer and increasing the version together; otherwise the session is left
unchanged and the caller observes VersionConflict. -/
def stepAnswer (sess : Session) (expectedVersion : Nat) (answer : String) :
    Session × StepResult :=
  if sess.version = expectedVersion then
    ({ transcript := sess.transcript ++ [answer], version := sess.version + 1 },
      StepResult.ok)
  else
    (sess, StepResult.versionConflict)

/- ================= i18n (src/unnamed/part_004) ================= -/

/-- The translation table shape: the fourteen keys both language tables
define. -/
structure Translations where
  interviewAssistant : String
  chooseFile : String
  uploadResume : String
  uploading : String
  uploadFailed : String
  networkError : String
  selectedFile : String
  back : String
  typeAnswer : String
  send : String
  typing : String
  fetchQuestionFailed : String
  loading : String
  adaptiveQuestioning : String
deriving DecidableEq

/-- The English table `translations.en`. -/
def enTranslations : Translations :=
  { interviewAssistant := "Interview Assistant"
  , chooseFile := "Please choose a file"
  , uploadResume := "Upload Resume"
  , uploading := "Uploading..."
  , uploadFailed := "Upload failed. Please try again."
  , networkError := "Network error. Please check your connection."
  , selectedFile := "Selected file:"
  , back := "Back"
  , typeAnswer := "Type your answer..."
  , send := "Send"
  , typing := "Typing..."
  , fetchQuestionFailed := "Failed to fetch question"
  , loading := "Loading..."
  , adaptiveQuestioning := "Enable Adaptive Questioning" }

/-- The Chinese table `translations.zh`. -/
def zhTranslations : Translations :=
  { interviewAssistant := "面试助手"
  , chooseFile := "请选择文件"
  , uploadResume := "上传简历"
  , uploading := "上传中..."
  , uploadFailed := "上传失败，请重试。"
  , networkError := "网络错误，请检查您的连接。"
  , selectedFile := "已选择文件:"
  , back := "返回"
  , typeAnswer := "请输入您的回答..."
  , send := "发送"
  , typing := "正在输入..."
  , fetchQuestionFailed := "获取问题失败"
  , loading := "加载中..."
  , adaptiveQuestioning := "开启自适应问题" }

/-- The property names every plain JavaScript object literal inherits from
Object.prototype (including the web-legacy accessor members): bracket lookup
with one of these keys finds the inherited member even though it is not an own
property of the `translations` literal. Each inherited member is a function
(or, for `__proto__`, the Object.prototype object itself) and therefore
truthy. -/
def objectPrototypeKeys : List String :=
  [ "constructor", "hasOwnProperty", "isPrototypeOf", "propertyIsEnumerable"
  , "toLocaleString", "toString", "valueOf", "__proto__"
  , "__defineGetter__", "__defineSetter__", "__lookupGetter__"
  , "__lookupSetter__" ]

/-- A value `translations[language]` can evaluate to when it is defined: one
of the two own-property translation tables, or a member inherited from
Object.prototype, identified by its property name. Both kinds are truthy in
JavaScript. -/
inductive TranslationsMember where
  | table (t : Translations)
  | protoMember (name : String)
deriving DecidableEq

/-- Property lookup `translations[language]`: the literal owns exactly the
keys "en" and "zh"; any other key continues along the prototype chain, so an
Object.prototype property name yields the inherited member, and only the
remaining keys — including an undefined argument, embedded as `none`, whose
coerced key "undefined" is neither own nor inherited — yield undefined. -/
def translationsLookup (language : Option String) : Option TranslationsMember :=
  match language with
  | none => none
  | some l =>
    if l = "en" then some (TranslationsMember.table enTranslations)
    else if l = "zh" then some (TranslationsMember.table zhTranslations)
    else if l ∈ objectPrototypeKeys then some (TranslationsMember.protoMember l)
    else none

/-- getTranslations (part_004 lines 46-48):
`translations[language] || translations.en` — the looked-up value when it is
defined (tables and inherited Object.prototype members are all truthy),
otherwise the English table. -/
def getTranslations (language : Option String) : TranslationsMember :=
  (translationsLookup language).getD (TranslationsMember.table enTranslations)

/- ================= formatTime (src/unnamed/part_001 lines 69-73) ================= -/

/-- The character of a decimal digit, as produced digit by digit when a
JavaScript number is converted to its decimal string. -/
def toDigitChar (d : Nat) : Char := Char.ofNat (48 + d)

/-- Decimal rendering of a non-negative integer, most significant digit
first, prepended to `acc`; embeds `Number.prototype.toString()` for the
non-negative integers `formatTime` feeds it. -/
def toDecimalAux (n : Nat) (acc : List Char) : List Char :=
  if h : n < 10 then toDigitChar n :: acc
  else toDecimalAux (n / 10) (toDigitChar (n % 10) :: acc)
termination_by n
decreasing_by exact Nat.div_lt_self (by omega) (by omega)

/-- Decimal rendering of `n` as a character list. -/
def toDecimal (n : Nat) : List Char := toDecimalAux n []

/-- String-valued decimal rendering. -/
def toDecimalString (n : Nat) : String := String.mk (toDecimal n)

/-- padStart(len, c) on a character list (part_001 pads with "0" to length
2): prepend copies of `c` until the length is `len`; a list already at least
`len` long is unchanged. -/
def padStartChars (cs : List Char) (len : Nat) (c : Char) : List Char :=
  List.replicate (len - cs.length) c ++ cs

/-- formatTime (part_001 lines 69-73; the identical helper also appears in
PreparePage.js lines 90-94): mins = floor(seconds / 60) and secs =
seconds % 60, each rendered in decimal, padded with '0' to length 2, and
joined with ':'. -/
def formatTime (seconds : Nat) : String :=
  String.mk
    (padStartChars (toDecimal (seconds / 60)) 2 '0' ++
      ':' :: padStartChars (toDecimal (seconds % 60)) 2 '0')

/-- Numeric value of one decimal digit character; `none` for a non-digit. -/
def digitVal (c : Char) : Option Nat :=
  if 48 ≤ c.toNat ∧ c.toNat ≤ 57 then some (c.toNat - 48) else none

/-- Left fold reading a digit string back as a number, accumulating into
`acc`; fails on any non-digit character. -/
def parseDigitsAux (acc : Nat) : List Char → Option Nat
  | [] => some acc
  | c :: cs =>
    match digitVal c with
    | some d => parseDigitsAux (acc * 10 + d) cs
    | none => none

/-- Parse a (possibly zero-padded) decimal digit string back to its numeric
value. -/
def parseDigits (cs : List Char) : Option Nat := parseDigitsAux 0 cs

/- ================= Helper lemmas ================= -/

theorem toDecimalAux_of_lt (n : Nat) (acc : List Char) (h : n < 10) :
    toDecimalAux n acc = toDigitChar n :: acc := by
  rw [toDecimalAux]
  simp [h]

theorem toDecimalAux_of_ge (n : Nat) (acc : List Char) (h : ¬ n < 10) :
    toDecimalAux n acc = toDecimalAux (n / 10) (toDigitChar (n % 10) :: acc) := by
  rw [toDecimalAux]
  simp [h]

theorem toDecimalAux_append (n : Nat) : ∀ acc : List Char,
    toDecimalAux n acc = toDecimal n ++ acc := by
  induction n using Nat.strong_induction_on with
  | _ n ih =>
    intro acc
    by_cases h : n < 10
    · rw [toDecimalAux_of_lt n acc h, toDecimal, toDecimalAux_of_lt n [] h]
      rfl
    · have hlt : n / 10 < n := Nat.div_lt_self (by omega) (by omega)
      rw [toDecimalAux_of_ge n acc h, toDecimal, toDecimalAux_of_ge n [] h,
        ih (n / 10) hlt, ih (n / 10) hlt (toDigitChar (n % 10) :: [])]
      simp

theorem toDecimal_length_pos (n : Nat) : 1 ≤ (toDecimal n).length := by
  rw [toDecimal]
  by_cases h : n < 10
  · rw [toDecimalAux_of_lt n [] h]
    simp
  · rw [toDecimalAux_of_ge n [] h, toDecimalAux_append]
    simp

theorem toDecimal_length_le_two (n : Nat) (h : n < 100) :
    (toDecimal n).length ≤ 2 := by
  rw [toDecimal]
  by_cases h1 : n < 10
  · rw [toDecimalAux_of_lt n [] h1]
    simp
  · have h2 : n / 10 < 10 := by omega
    rw [toDecimalAux_of_ge n [] h1, toDecimalAux_of_lt (n / 10) _ h2]
    simp

theorem digitVal_toDigitChar (d : Nat) (h : d < 10) :
    digitVal (toDigitChar d) = some d := by
  interval_cases d <;> decide

theorem parseDigitsAux_append (xs : List Char) : ∀ ys : List Char, ∀ acc v : Nat,
    parseDigitsAux acc xs = some v →
    parseDigitsAux acc (xs ++ ys) = parseDigitsAux v ys := by
  induction xs with
  | nil =>
    intro ys acc v h
    simp only [parseDigitsAux, Option.some.injEq] at h
    simp [h]
  | cons c cs ih =>
    intro ys acc v h
    simp only [parseDigitsAux] at h ⊢
    cases hd : digitVal c with
    | none => rw [hd] at h; exact absurd h (by simp)
    | some d =>
      rw [hd] at h
      simp only [List.cons_append, parseDigitsAux, hd]
      exact ih ys (acc * 10 + d) v h

theorem parseDigits_toDecimal (n : Nat) : parseDigits (toDecimal n) = some n := by
  induction n using Nat.strong_induction_on with
  | _ n ih =>
    by_cases h : n < 10
    · rw [parseDigits, toDecimal, toDecimalAux_of_lt n [] h]
      simp [parseDigitsAux, digitVal_toDigitChar n h]
    · have hlt : n / 10 < n := Nat.div_lt_self (by omega) (by omega)
      have hmod : n % 10 < 10 := Nat.mod_lt n (by omega)
      rw [parseDigits, toDecimal, toDecimalAux_of_ge n [] h, toDecimalAux_append]
      rw [parseDigitsAux_append (toDecimal (n / 10)) _ 0 (n / 10) (ih (n / 10) hlt)]
      simp only [parseDigitsAux, digitVal_toDigitChar (n % 10) hmod]
      congr 1
      omega

theorem parseDigitsAux_zeros (k : Nat) : ∀ cs : List Char,
    parseDigitsAux 0 (List.replicate k '0' ++ cs) = parseDigitsAux 0 cs := by
  induction k with
  | zero => intro cs; simp
  | succ k ih =>
    intro cs
    have h0 : digitVal '0' = some 0 := by decide
    simp only [List.replicate_succ, List.cons_append, parseDigitsAux, h0]
    exact ih cs

theorem parseDigits_padStart (cs : List Char) (len : Nat) (v : Nat)
    (h : parseDigits cs = some v) :
    parseDigits (padStartChars cs len '0') = some v := by
  rw [padStartChars, parseDigits, parseDigitsAux_zeros]
  exact h

theorem toDecimalString_sample : toDecimalString 605 = "605" := by
  rw [toDecimalString, toDecimal, toDecimalAux_of_ge 605 [] (by norm_num)]
  norm_num
  rw [toDecimalAux_of_ge 60 _ (by norm_num)]
  norm_num
  rw [toDecimalAux_of_lt 6 _ (by norm_num)]
  decide

theorem formatTime_sample : formatTime 125 = "02:05" := by
  rw [formatTime]
  norm_num
  rw [toDecimal, toDecimal, toDecimalAux_of_lt 2 [] (by norm_num),
    toDecimalAux_of_lt 5 [] (by norm_num)]
  decide

theorem formatTime_sample_large : formatTime 35999 = "599:59" := by
  rw [formatTime]
  norm_num
  rw [toDecimal, toDecimal, toDecimalAux_of_ge 599 [] (by norm_num)]
  norm_num
  rw [toDecimalAux_of_ge 59 _ (by norm_num)]
  norm_num
  rw [toDecimalAux_of_lt 5 _ (by norm_num), toDecimalAux_of_ge 59 [] (by norm_num)]
  norm_num
  rw [toDecimalAux_of_lt 5 _ (by norm_num)]
  decide

/- ================= Claim theorems ================= -/

/-- C1, counterexample: the claim says a failure of the model call for
natural-language feedback still yields the numeric final score with a
templated generic feedback string. In the code, score and feedback come from
one and the same model call: when that call fails, evaluateCandidateAnswers
rethrows the error, the ResultPage stores no evaluation (hence no score), and
only the error banner "评分过程中发生错误，请稍后重试" with a manual retry is
shown. -/
theorem c1_counterexample_no_score_on_failure :
    evaluateCandidateAnswers (ModelResponse.callError "network error") =
      Except.error "network error" ∧
    (evaluateAnswers initialResultPageState
      (ModelResponse.callError "network error")).evaluation = none ∧
    (evaluateAnswers initialResultPageState
      (ModelResponse.callError "network error")).error =
      some "评分过程中发生错误，请稍后重试" :=
  ⟨rfl, rfl, rfl⟩

/-- C1, amended: the numeric score and the feedback are produced by a single
model call; the evaluation yields a score exactly when that call succeeded and
its content parsed as JSON — the score does depend on a model call succeeding,
and a failure surfaces as an error with a retry option instead of a templated
generic feedback. -/
theorem c1_amended_score_iff_call_succeeds (resp : ModelResponse Evaluation) :
    (∃ j, evaluateCandidateAnswers resp = Except.ok j) ↔
    (∃ raw j, resp = ModelResponse.content raw (some j)) := by
  cases resp with
  | callError m => simp [evaluateCandidateAnswers]
  | content raw parsed =>
    cases parsed with
    | none => simp [evaluateCandidateAnswers]
    | some j => simp [evaluateCandidateAnswers]

/-- C2, counterexample: the claim says the raw unparsed model output text is
never returned to the caller. When `JSON.parse` fails,
generateInterviewQuestions returns the raw response content itself as the
result. -/
theorem c2_counterexample_raw_returned :
    generateInterviewQuestions
      (ModelResponse.content "好的，以下是为您准备的面试题目……" none) =
      Except.ok (GenOutcome.raw "好的，以下是为您准备的面试题目……") := rfl

/-- C2, amended: the caller of generateInterviewQuestions receives the parsed
question list when the output parses, the raw unparsed content string as the
result when parsing fails, and the rethrown model-call error otherwise —
there is no closed typed-error taxonomy shielding the caller from raw model
output. -/
theorem c2_amended_outcomes (m raw : String) (qs : List Question) :
    generateInterviewQuestions (ModelResponse.callError m) = Except.error m ∧
    generateInterviewQuestions (ModelResponse.content raw (some qs)) =
      Except.ok (GenOutcome.questions qs) ∧
    generateInterviewQuestions (ModelResponse.content raw none) =
      Except.ok (GenOutcome.raw raw) :=
  ⟨rfl, rfl, rfl⟩

/-- A concrete question object used in the retry counterexample. -/
def sampleQuestion : Question :=
  { id := 1, type := "综合分析", text := "请谈谈对基层治理现代化的看法。",
    analysis_points := [] }

/-- A response stream whose first attempt does not match the schema and whose
every later attempt parses to a question list. -/
def badThenGood : Nat → ModelResponse (List Question) :=
  fun i =>
    if i = 0 then ModelResponse.content "抱歉，无法以JSON格式输出。" none
    else ModelResponse.content "ok" (some [sampleQuestion])

/-- C3, counterexample: the claim says a schema mismatch on the first attempt
leads to a stricter re-prompt, up to maxContractRetries (default 2) further
attempts, before a ContractViolation. On the stream badThenGood, whose second
attempt would parse, the source service still returns the raw first response
immediately — the first mismatch does produce the final outcome and no
ContractViolation is ever reported — whereas the gateway the spec describes
(specGatewayGenerate, modelled from the spec for comparison) would return the
parsed questions on the retry. -/
theorem c3_counterexample_no_retry :
    generateInterviewQuestionsRun badThenGood =
      Except.ok (GenOutcome.raw "抱歉，无法以JSON格式输出。") ∧
    specGatewayGenerate 2 badThenGood 0 = Except.ok [sampleQuestion] :=
  ⟨rfl, rfl⟩

/-- C3, amended: the service invokes the model exactly once: its result
depends only on the first response of the stream, and a first-attempt schema
mismatch immediately yields the raw content as the final outcome, with no
re-prompt and no ContractViolation. -/
theorem c3_amended_single_invocation (f g : Nat → ModelResponse (List Question))
    (h : f 0 = g 0) :
    generateInterviewQuestionsRun f = generateInterviewQuestionsRun g ∧
    ∀ raw, f 0 = ModelResponse.content raw none →
      generateInterviewQuestionsRun f = Except.ok (GenOutcome.raw raw) := by
  constructor
  · simp only [generateInterviewQuestionsRun, h]
  · intro raw hr
    simp only [generateInterviewQuestionsRun, hr]
    rfl

/-- Witness for c3_amended_single_invocation at the badThenGood stream and the
constant stream sharing its first response. -/
theorem c3_amended_single_invocation_witness :
    generateInterviewQuestionsRun badThenGood =
      generateInterviewQuestionsRun
        (fun _ => ModelResponse.content "抱歉，无法以JSON格式输出。" none) ∧
    generateInterviewQuestionsRun badThenGood =
      Except.ok (GenOutcome.raw "抱歉，无法以JSON格式输出。") := by
  have h := c3_amended_single_invocation badThenGood
    (fun _ => ModelResponse.content "抱歉，无法以JSON格式输出。" none) rfl
  exact ⟨h.1, h.2 _ rfl⟩

/-- C4: when the topic-extraction gateway call ends in a ContractViolation
after retries, the extractor returns the single generic fallback topic
"general technical background" as a successful result instead of failing the
session, so questioning remains reachable. Settled against extractTopics,
modelled from the spec because the Topic Extractor is backend code not under
src/. -/
theorem c4_topic_extractor_fallback :
    extractTopics (Except.error GenError.contractViolation) =
      Except.ok [{ name := "general technical background", priority := 1 }] := rfl

/-- An evaluation as the model could return it, with a score outside
[0,100]. -/
def outOfRangeEvaluation : Evaluation :=
  { overallScore := some 150, feedback := some "整体表现良好",
    strengths := [], improvements := [] }

/-- C5, counterexample: the claim says the final score is always in [0,100].
The code applies no clamping: a model response whose overallScore is 150
parses successfully and 150 is displayed as the final score. -/
theorem c5_counterexample_score_not_clamped :
    displayedScore (evaluateAnswers initialResultPageState
      (ModelResponse.content "raw" (some outOfRangeEvaluation))) = 150 ∧
    ¬ (displayedScore (evaluateAnswers initialResultPageState
      (ModelResponse.content "raw" (some outOfRangeEvaluation))) ≤ 100) := by
  decide

/-- C5, amended: the displayed final score is exactly the model-returned
overallScore with absent or zero values displaying as 0 and no clamping to
[0,100]; a successful evaluation overwrites the stored evaluation and a
failed one leaves it unchanged (the UI re-runs evaluation only through the
manual retry shown after a failure). -/
theorem c5_amended_score_behaviour (st : ResultPageState) (raw m : String)
    (j : Evaluation) :
    (evaluateAnswers st (ModelResponse.content raw (some j))).evaluation = some j ∧
    (evaluateAnswers st (ModelResponse.callError m)).evaluation = st.evaluation ∧
    (evaluateAnswers st (ModelResponse.content raw none)).evaluation = st.evaluation ∧
    displayedScore (evaluateAnswers st (ModelResponse.content raw (some j))) =
      (j.overallScore).getD 0 := by
  refine ⟨rfl, rfl, rfl, ?_⟩
  cases hs : j.overallScore with
  | none => simp [displayedScore, evaluateAnswers, evaluateCandidateAnswers, hs]
  | some v =>
    by_cases hv : v = 0
    · subst hv
      simp [displayedScore, evaluateAnswers, evaluateCandidateAnswers, hs]
    · simp [displayedScore, evaluateAnswers, evaluateCandidateAnswers, hs, hv]

/-- Every single Chat event leaves the previous message list as a prefix of
the new one. -/
theorem chatEvent_extends (msgs : List Message) (e : ChatEvent) :
    msgs <+: applyChatEvent msgs e := by
  cases e with
  | firstQuestion m =>
    rw [applyChatEvent, addAgentMessage]
    by_cases hd : isDuplicateMessage m msgs
    · rw [if_pos hd]
    · rw [if_neg hd]
      exact ⟨[m], rfl⟩
  | answerAccepted u a =>
    rw [applyChatEvent, addAgentMessage]
    by_cases hd : isDuplicateMessage a (msgs ++ [u])
    · rw [if_pos hd]
      exact ⟨[u], rfl⟩
    · rw [if_neg hd]
      exact ⟨[u] ++ [a], (List.append_assoc msgs [u] [a]).symm⟩
  | answerFailed u => exact ⟨[u], rfl⟩

/-- C6: the Chat transcript is append-only — after any sequence of
transcript-changing events (first-question fetch, accepted or failed answer
submission), the earlier message list is a prefix of the later one; no event
mutates, removes or reorders an appended message. -/
theorem c6_transcript_append_only (es : List ChatEvent) : ∀ msgs : List Message,
    msgs <+: applyChatEvents msgs es := by
  induction es with
  | nil => intro msgs; exact ⟨[], List.append_nil msgs⟩
  | cons e es ih =>
    intro msgs
    exact (chatEvent_extends msgs e).trans (ih (applyChatEvent msgs e))

/-- An ambient localStorage state holding the DeepSeek configuration. -/
def lsDeepseek : LocalStorageState :=
  some (some { modelName := "deepseek-chat",
               baseURL := "https://api.deepseek.com/v1",
               apiToken := "tok-1" })

/-- The same browser after the user edits the model settings: a different
ambient configuration. -/
def lsOther : LocalStorageState :=
  some (some { modelName := "gpt-4o",
               baseURL := "https://api.openai.com/v1",
               apiToken := "tok-1" })

/-- C7, counterexample: the claim says configuration is captured once at
session creation and never re-read from ambient mutable state, so two runs of
the same step sequence from the same session record behave the same. But
initializeOpenAIModel reads the ambient localStorage on every generation
call: with an unchanged session record, two runs under the two storage states
lsDeepseek and lsOther configure different models. -/
theorem c7_counterexample_ambient_reread :
    initializeOpenAIModel lsDeepseek =
      Except.ok { modelName := "deepseek-chat",
                  baseURL := "https://api.deepseek.com/v1",
                  apiKey := "tok-1" } ∧
    initializeOpenAIModel lsOther =
      Except.ok { modelName := "gpt-4o",
                  baseURL := "https://api.openai.com/v1",
                  apiKey := "tok-1" } ∧
    initializeOpenAIModel lsDeepseek ≠ initializeOpenAIModel lsOther := by
  refine ⟨rfl, rfl, ?_⟩
  intro h
  have hm := congrArg
    (fun r => match r with
      | Except.ok p => ChatOpenAIParams.modelName p
      | Except.error _ => "") h
  exact absurd hm (by decide)

/-- C7, amended: the model settings (name, base URL, API token) are re-read
from the ambient localStorage by getModelConfig and getApiToken on every
generation call — each call's model parameters are a function of the storage
state at call time — while the adaptive-questioning toggle is captured once in
the session-start request URL. -/
theorem c7_amended_ambient_config (c : ModelConfig) (h : c.apiToken ≠ "") :
    getModelConfig (some (some c)) = some c ∧
    getModelConfig none = none ∧
    getApiToken (some (some c)) = some c.apiToken ∧
    initializeOpenAIModel (some (some c)) =
      Except.ok { modelName := c.modelName, baseURL := c.baseURL,
                  apiKey := c.apiToken } ∧
    startUrl true ≠ startUrl false := by
  refine ⟨rfl, rfl, ?_, rfl, ?_⟩
  · simp [getApiToken, h]
  · decide

/-- Witness for c7_amended_ambient_config at the stored DeepSeek
configuration. -/
theorem c7_amended_ambient_config_witness :
    getApiToken (some (some { modelName := "deepseek-chat",
                              baseURL := "https://api.deepseek.com/v1",
                              apiToken := "tok-1" })) = some "tok-1" ∧
    startUrl true ≠ startUrl false := by
  have h := c7_amended_ambient_config
    { modelName := "deepseek-chat", baseURL := "https://api.deepseek.com/v1",
      apiToken := "tok-1" } (by decide)
  exact ⟨h.2.2.1, h.2.2.2.2⟩

/-- C8: submitting the same answer twice with the same expected version
against the version-guarded step (stepAnswer, modelled from the spec because
the Session Store is backend code not under src/): the first submission is
applied, the second is rejected with VersionConflict and leaves the session
unchanged, and the answer appears in the transcript exactly once. -/
theorem c8_duplicate_step_conflict (sess : Session) (v : Nat) (a : String)
    (h : sess.version = v) :
    (stepAnswer sess v a).2 = StepResult.ok ∧
    (stepAnswer (stepAnswer sess v a).1 v a).2 = StepResult.versionConflict ∧
    (stepAnswer (stepAnswer sess v a).1 v a).1 = (stepAnswer sess v a).1 ∧
    (stepAnswer (stepAnswer sess v a).1 v a).1.transcript =
      sess.transcript ++ [a] := by
  have h2 : ¬ (v + 1 = v) := by omega
  refine ⟨?_, ?_, ?_, ?_⟩ <;> simp [stepAnswer, h, h2]

/-- Witness for c8_duplicate_step_conflict on a fresh session at version 0. -/
theorem c8_duplicate_step_conflict_witness :
    (stepAnswer { transcript := [], version := 0 } 0 "我的回答").2 =
      StepResult.ok ∧
    (stepAnswer (stepAnswer { transcript := [], version := 0 } 0 "我的回答").1
      0 "我的回答").2 = StepResult.versionConflict ∧
    (stepAnswer (stepAnswer { transcript := [], version := 0 } 0 "我的回答").1
      0 "我的回答").1.transcript = [] ++ ["我的回答"] := by
  have h := c8_duplicate_step_conflict { transcript := [], version := 0 } 0
    "我的回答" rfl
  exact ⟨h.1, h.2.1, h.2.2.2⟩

/-- C9, counterexample: the claim says getTranslations returns the English
table for any input other than "zh" and "en". But bracket lookup consults the
prototype chain: `translations["toString"]` finds the inherited truthy
Object.prototype member, so getTranslations "toString" returns that member,
not the English table. -/
theorem c9_counterexample_proto_lookup :
    getTranslations (some "toString") = TranslationsMember.protoMember "toString" ∧
    getTranslations (some "toString") ≠ TranslationsMember.table enTranslations :=
  ⟨rfl, by decide⟩

/-- C9, amended: getTranslations returns the Chinese table for "zh", the
English table for "en", and the English table for every other argument — any
unknown code, the empty string, or an undefined (none) argument — except that
an argument naming an inherited Object.prototype member ("toString",
"constructor", "__proto__", "hasOwnProperty", ...) returns that truthy
inherited member itself instead of a translation table; it never returns
undefined and never throws. -/
theorem c9_amended_getTranslations (language : Option String)
    (h1 : language ≠ some "zh")
    (h2 : ∀ l ∈ objectPrototypeKeys, language ≠ some l) :
    getTranslations (some "zh") = TranslationsMember.table zhTranslations ∧
    getTranslations (some "en") = TranslationsMember.table enTranslations ∧
    getTranslations language = TranslationsMember.table enTranslations ∧
    ∀ l ∈ objectPrototypeKeys,
      getTranslations (some l) = TranslationsMember.protoMember l := by
  refine ⟨rfl, rfl, ?_, by decide⟩
  obtain _ | l := language
  · rfl
  · by_cases he : l = "en"
    · subst he; rfl
    · by_cases hz : l = "zh"
      · exact absurd (by rw [hz]) h1
      · have hmem : l ∉ objectPrototypeKeys := fun hm => h2 l hm rfl
        simp [getTranslations, translationsLookup, he, hz, hmem]

/-- Witness for c9_amended_getTranslations at the unknown code "fr", with the
prototype-member clause instantiated at "toString". -/
theorem c9_amended_getTranslations_witness :
    getTranslations (some "fr") = TranslationsMember.table enTranslations ∧
    getTranslations (some "toString") = TranslationsMember.protoMember "toString" := by
  have h := c9_amended_getTranslations (some "fr") (by decide) (by decide)
  exact ⟨h.2.2.1, h.2.2.2 "toString" (by decide)⟩

/-- C10: for every number of seconds s, formatTime s has the shape MM:SS —
a minutes component of at least two digit characters, a seconds component of
exactly two, both zero-padded — the seconds component parses back to
s mod 60 ≤ 59, the minutes component parses back to s / 60, and
minutes * 60 + seconds recovers exactly s. -/
theorem c10_formatTime_roundtrip (s : Nat) :
    ∃ a b : List Char,
      (formatTime s).data = a ++ ':' :: b ∧
      2 ≤ a.length ∧
      b.length = 2 ∧
      parseDigits a = some (s / 60) ∧
      parseDigits b = some (s % 60) ∧
      s % 60 ≤ 59 ∧
      (s / 60) * 60 + s % 60 = s := by
  refine ⟨padStartChars (toDecimal (s / 60)) 2 '0',
    padStartChars (toDecimal (s % 60)) 2 '0', rfl, ?_, ?_, ?_, ?_, ?_, ?_⟩
  · have h1 := toDecimal_length_pos (s / 60)
    simp only [padStartChars, List.length_append, List.length_replicate]
    omega
  · have h1 := toDecimal_length_pos (s % 60)
    have h2 := toDecimal_length_le_two (s % 60) (by omega)
    simp only [padStartChars, List.length_append, List.length_replicate]
    omega
  · exact parseDigits_padStart _ _ _ (parseDigits_toDecimal (s / 60))
  · exact parseDigits_padStart _ _ _ (parseDigits_toDecimal (s % 60))
  · omega
  · omega
